import Mathlib

/-!
Shallow embedding of `PythonAPI/no_rendering_mode.py` (CARLA no-rendering-mode
2D visualizer) and proofs about its coordinate transform, actor classifier,
radius culling, camera offset, bounding-box computation, traffic-light colour
selection, hero lookup and zoom clamping.

Python floats are modelled as exact rationals (`ℚ`); Python `int(...)`
truncation toward zero is `pyInt`; a Python runtime error in an embedded
function (ZeroDivisionError, UnboundLocalError, IndexError) is `none` of an
`Option` result.
-/

namespace NoRenderingMode

/-- Model of Python `int(x)` applied to a float: truncation toward zero. -/
def pyInt (q : ℚ) : ℤ := if q < 0 then ⌈q⌉ else ⌊q⌋

theorem pyInt_of_nonneg {q : ℚ} (h : 0 ≤ q) : pyInt q = ⌊q⌋ := by
  simp [pyInt, not_lt.mpr h]

theorem pyInt_nonneg {q : ℚ} (h : 0 ≤ q) : 0 ≤ pyInt q := by
  rw [pyInt_of_nonneg h]
  exact Int.floor_nonneg.mpr h

theorem pyInt_le_of_le_natCast {q : ℚ} {n : ℕ} (h0 : 0 ≤ q) (h : q ≤ (n : ℚ)) :
    pyInt q ≤ (n : ℤ) := by
  rw [pyInt_of_nonneg h0]
  exact_mod_cast Int.floor_le_floor h |>.trans_eq (by exact_mod_cast Int.floor_natCast n)

theorem pyInt_natCast (n : ℕ) : pyInt (n : ℚ) = (n : ℤ) := by
  rw [pyInt_of_nonneg (by positivity)]
  exact_mod_cast Int.floor_natCast n

/-- Truncation toward zero moves a rational by strictly less than 1. -/
theorem abs_pyInt_sub_lt_one (q : ℚ) : |((pyInt q : ℤ) : ℚ) - q| < 1 := by
  unfold pyInt
  split
  · rename_i h
    rw [abs_sub_lt_iff]
    constructor
    · have := Int.ceil_lt_add_one q
      push_cast at this ⊢
      linarith
    · have := Int.le_ceil q
      push_cast at this ⊢
      linarith
  · rw [abs_sub_lt_iff]
    constructor
    · have := Int.floor_le q
      push_cast at this ⊢
      linarith
    · have := Int.sub_one_lt_floor q
      push_cast at this ⊢
      linarith

/-- Embedding of `TransformHelper.__init__`: it only stores its three
arguments; no validation of the bounds happens at construction. -/
structure TransformHelper where
  min_map_point : ℚ × ℚ
  max_map_point : ℚ × ℚ
  map_size : ℕ
deriving DecidableEq

/-- Construction of a `TransformHelper`, kept fallible in the type so that
"construction raises" is expressible: the Python `__init__` never raises, so
this always returns `some`. -/
def TransformHelper.init (mn mx : ℚ × ℚ) (size : ℕ) : Option TransformHelper :=
  some ⟨mn, mx, size⟩

/-- Embedding of `TransformHelper.convert_world_to_screen_point`. The guard
models the ZeroDivisionError raised by the float division when the bounds are
degenerate on the axis being converted. -/
def TransformHelper.convert_world_to_screen_point (th : TransformHelper) (point : ℚ × ℚ) :
    Option (ℤ × ℤ) :=
  if th.max_map_point.1 - th.min_map_point.1 = 0 ∨ th.max_map_point.2 - th.min_map_point.2 = 0 then
    none
  else
    some (pyInt ((point.1 - th.min_map_point.1) / (th.max_map_point.1 - th.min_map_point.1)
            * (th.map_size : ℚ)),
          pyInt ((point.2 - th.min_map_point.2) / (th.max_map_point.2 - th.min_map_point.2)
            * (th.map_size : ℚ)))

/-- Embedding of `TransformHelper.convert_world_to_screen_size`; same
ZeroDivisionError guard, and no translation component. -/
def TransformHelper.convert_world_to_screen_size (th : TransformHelper) (size : ℚ × ℚ) :
    Option (ℤ × ℤ) :=
  if th.max_map_point.1 - th.min_map_point.1 = 0 ∨ th.max_map_point.2 - th.min_map_point.2 = 0 then
    none
  else
    some (pyInt (size.1 / (th.max_map_point.1 - th.min_map_point.1) * (th.map_size : ℚ)),
          pyInt (size.2 / (th.max_map_point.2 - th.min_map_point.2) * (th.map_size : ℚ)))

theorem scaled_ratio_mem_Icc {a b x : ℚ} {s : ℕ} (hab : a < b) (hax : a ≤ x) (hxb : x ≤ b) :
    0 ≤ (x - a) / (b - a) * (s : ℚ) ∧ (x - a) / (b - a) * (s : ℚ) ≤ (s : ℚ) := by
  have hba : (0 : ℚ) < b - a := by linarith
  constructor
  · apply mul_nonneg _ (by positivity)
    exact div_nonneg (by linarith) hba.le
  · have hr : (x - a) / (b - a) ≤ 1 := by
      rw [div_le_one hba]
      linarith
    calc (x - a) / (b - a) * (s : ℚ) ≤ 1 * (s : ℚ) :=
          mul_le_mul_of_nonneg_right hr (by positivity)
      _ = (s : ℚ) := one_mul _

/-- C1: with world bounds `min < max` per axis, `convert_world_to_screen_point`
maps every world point inside the box into `[0, canvasSize]^2`, maps `min` to
`(0,0)` and `max` to `(canvasSize, canvasSize)`, and with bounds
`(0,0)-(1000,1000)` and canvas 800 it maps `(500,500)` to `(400,400)`. -/
theorem convert_point_maps_box_into_canvas (mn mx p : ℚ × ℚ) (size : ℕ)
    (hx : mn.1 < mx.1) (hy : mn.2 < mx.2)
    (hp1 : mn.1 ≤ p.1) (hp2 : p.1 ≤ mx.1) (hp3 : mn.2 ≤ p.2) (hp4 : p.2 ≤ mx.2) :
    (∃ px py, (TransformHelper.mk mn mx size).convert_world_to_screen_point p = some (px, py) ∧
      0 ≤ px ∧ px ≤ (size : ℤ) ∧ 0 ≤ py ∧ py ≤ (size : ℤ)) ∧
    (TransformHelper.mk mn mx size).convert_world_to_screen_point mn = some (0, 0) ∧
    (TransformHelper.mk mn mx size).convert_world_to_screen_point mx =
      some ((size : ℤ), (size : ℤ)) ∧
    (TransformHelper.mk (0, 0) (1000, 1000) 800).convert_world_to_screen_point (500, 500) =
      some (400, 400) := by
  have hdx : mx.1 - mn.1 ≠ 0 := sub_ne_zero.mpr hx.ne'
  have hdy : mx.2 - mn.2 ≠ 0 := sub_ne_zero.mpr hy.ne'
  refine ⟨?_, ?_, ?_, by norm_num [TransformHelper.convert_world_to_screen_point, pyInt]⟩
  · obtain ⟨h0x, h1x⟩ := scaled_ratio_mem_Icc hx hp1 hp2 (s := size)
    obtain ⟨h0y, h1y⟩ := scaled_ratio_mem_Icc hy hp3 hp4 (s := size)
    exact ⟨_, _, by simp [TransformHelper.convert_world_to_screen_point, hdx, hdy],
      pyInt_nonneg h0x, pyInt_le_of_le_natCast h0x h1x,
      pyInt_nonneg h0y, pyInt_le_of_le_natCast h0y h1y⟩
  · simp [TransformHelper.convert_world_to_screen_point, hdx, hdy, pyInt]
  · rw [TransformHelper.convert_world_to_screen_point]
    rw [if_neg (by push_neg; exact ⟨hdx, hdy⟩)]
    rw [div_self hdx, div_self hdy, one_mul]
    show some (pyInt ((size : ℕ) : ℚ), pyInt ((size : ℕ) : ℚ)) = some ((size : ℤ), (size : ℤ))
    rw [pyInt_natCast]

/-- Witness for C1 at concrete bounds `(0,0)-(1000,1000)`, canvas 800 and
interior point `(250, 750)`. -/
theorem convert_point_maps_box_into_canvas_witness :
    (∃ px py, (TransformHelper.mk (0, 0) (1000, 1000) 800).convert_world_to_screen_point
        (250, 750) = some (px, py) ∧
      0 ≤ px ∧ px ≤ (800 : ℤ) ∧ 0 ≤ py ∧ py ≤ (800 : ℤ)) ∧
    (TransformHelper.mk (0, 0) (1000, 1000) 800).convert_world_to_screen_point (0, 0) =
      some (0, 0) ∧
    (TransformHelper.mk (0, 0) (1000, 1000) 800).convert_world_to_screen_point (1000, 1000) =
      some ((800 : ℤ), (800 : ℤ)) ∧
    (TransformHelper.mk (0, 0) (1000, 1000) 800).convert_world_to_screen_point (500, 500) =
      some (400, 400) :=
  convert_point_maps_box_into_canvas (0, 0) (1000, 1000) (250, 750) 800
    (by norm_num) (by norm_num) (by norm_num) (by norm_num) (by norm_num) (by norm_num)

/-- C2 counterexample: with degenerate bounds (`max.x == min.x`), construction
succeeds without any error, and it is the per-call conversion that faults
(division by zero), contradicting the claim on both sides. -/
theorem degenerate_bounds_construction_succeeds :
    TransformHelper.init (0, 0) (0, 5) 100 = some (TransformHelper.mk (0, 0) (0, 5) 100) ∧
    (TransformHelper.mk (0, 0) (0, 5) 100).convert_world_to_screen_point (3, 4) = none := by
  refine ⟨rfl, ?_⟩
  norm_num [TransformHelper.convert_world_to_screen_point]

/-- C2 (amended): constructing the transform with degenerate bounds raises no
error at construction time; instead every call to either conversion function on
such a transform faults with a division-by-zero error. -/
theorem degenerate_bounds_fault_per_call (mn mx p s : ℚ × ℚ) (size : ℕ)
    (h : mx.1 = mn.1 ∨ mx.2 = mn.2) :
    TransformHelper.init mn mx size = some (TransformHelper.mk mn mx size) ∧
    (TransformHelper.mk mn mx size).convert_world_to_screen_point p = none ∧
    (TransformHelper.mk mn mx size).convert_world_to_screen_size s = none := by
  have hz : mx.1 - mn.1 = 0 ∨ mx.2 - mn.2 = 0 := by
    rcases h with h | h
    · exact Or.inl (sub_eq_zero.mpr h)
    · exact Or.inr (sub_eq_zero.mpr h)
  exact ⟨rfl, by rw [TransformHelper.convert_world_to_screen_point, if_pos hz],
    by rw [TransformHelper.convert_world_to_screen_size, if_pos hz]⟩

/-- Witness for the amended C2 at concrete degenerate bounds `(0,0)-(0,5)`. -/
theorem degenerate_bounds_fault_per_call_witness :
    TransformHelper.init (0, 0) (0, 5) 100 = some (TransformHelper.mk (0, 0) (0, 5) 100) ∧
    (TransformHelper.mk (0, 0) (0, 5) 100).convert_world_to_screen_point (1, 2) = none ∧
    (TransformHelper.mk (0, 0) (0, 5) 100).convert_world_to_screen_size (3, 4) = none :=
  degenerate_bounds_fault_per_call (0, 0) (0, 5) (1, 2) (3, 4) 100 (Or.inl rfl)

/-- Embedding of the follow-mode translation-offset computation in
`ModuleWorld.render` (the `hero_actor is not None` branch): the offset is
`(-heroScreen.x + displayWidth/2, -heroScreen.y + displayHeight/2)`, computed
from the full display dimensions; a conversion fault propagates as `none`. -/
def followTranslationOffset (th : TransformHelper) (heroLoc : ℚ × ℚ) (w h : ℕ) :
    Option (ℚ × ℚ) :=
  (th.convert_world_to_screen_point heroLoc).map fun hs =>
    (-(hs.1 : ℚ) + (w : ℚ) / 2, -(hs.2 : ℚ) + (h : ℚ) / 2)

/-- C3 counterexample: at the default 1280x720 display the world canvas has
side 720, so the canvas centre is `(360, 360)`; but with bounds
`(0,0)-(1000,1000)` and hero at `(500,500)` (screen `(360,360)`) the offset is
`(280, 0)` and offset plus hero screen point is `(640, 360)`, the display
centre, not the canvas centre. -/
theorem follow_offset_misses_canvas_center :
    (TransformHelper.mk (0, 0) (1000, 1000) 720).convert_world_to_screen_point (500, 500) =
      some (360, 360) ∧
    followTranslationOffset (TransformHelper.mk (0, 0) (1000, 1000) 720) (500, 500) 1280 720 =
      some (280, 0) ∧
    ((280 : ℚ) + 360, (0 : ℚ) + 360) ≠ ((720 : ℚ) / 2, (720 : ℚ) / 2) := by
  refine ⟨?_, ?_, by norm_num⟩ <;>
    norm_num [followTranslationOffset, TransformHelper.convert_world_to_screen_point, pyInt]

/-- C3 (amended): in follow mode the translation offset recentres the followed
entity on the centre of the full display, `(displayWidth/2, displayHeight/2)`,
not on the centre of the square world canvas; the two coincide only when the
display is square. -/
theorem follow_offset_centers_on_display (th : TransformHelper) (loc : ℚ × ℚ) (w h : ℕ)
    (hs : ℤ × ℤ) (hc : th.convert_world_to_screen_point loc = some hs) :
    ∃ off, followTranslationOffset th loc w h = some off ∧
      off.1 + (hs.1 : ℚ) = (w : ℚ) / 2 ∧ off.2 + (hs.2 : ℚ) = (h : ℚ) / 2 := by
  refine ⟨(-(hs.1 : ℚ) + (w : ℚ) / 2, -(hs.2 : ℚ) + (h : ℚ) / 2), ?_, by ring, by ring⟩
  rw [followTranslationOffset, hc]
  rfl

/-- Witness for the amended C3 at the default 1280x720 display. -/
theorem follow_offset_centers_on_display_witness :
    ∃ off, followTranslationOffset (TransformHelper.mk (0, 0) (1000, 1000) 720)
        (500, 500) 1280 720 = some off ∧
      off.1 + ((360 : ℤ) : ℚ) = (1280 : ℚ) / 2 ∧ off.2 + ((360 : ℤ) : ℚ) = (720 : ℚ) / 2 :=
  follow_offset_centers_on_display (TransformHelper.mk (0, 0) (1000, 1000) 720)
    (500, 500) 1280 720 (360, 360)
    (by norm_num [TransformHelper.convert_world_to_screen_point, pyInt])

/-- Model of a CARLA actor as seen by this program: a stable integer id, the
type identifier string, and a world location (used by the radius filter). -/
structure Actor where
  id : ℕ
  type_id : List Char
  x : ℚ
  y : ℚ
deriving DecidableEq

/-- Model of Python `sub in s` on strings: `sub` occurs as a contiguous
substring of `s`. -/
def containsSub (sub : List Char) : List Char → Bool
  | [] => sub.isEmpty
  | c :: t => sub.isPrefixOf (c :: t) || containsSub sub t

def vehicleTid : List Char := "vehicle".toList

def trafficLightTid : List Char := "traffic_light".toList

def speedLimitTid : List Char := "speed_limit".toList

def walkerTid : List Char := "walker".toList

/-- Embedding of `ModuleWorld._splitActors`: one pass over the actor list,
appending each actor to the first group whose substring matches its type
identifier, in the order vehicle, traffic_light, speed_limit, walker; an actor
matching none is dropped. -/
def splitActors : List Actor → List Actor × List Actor × List Actor × List Actor
  | [] => ([], [], [], [])
  | a :: rest =>
    let r := splitActors rest
    if containsSub vehicleTid a.type_id then (a :: r.1, r.2.1, r.2.2.1, r.2.2.2)
    else if containsSub trafficLightTid a.type_id then (r.1, a :: r.2.1, r.2.2.1, r.2.2.2)
    else if containsSub speedLimitTid a.type_id then (r.1, r.2.1, a :: r.2.2.1, r.2.2.2)
    else if containsSub walkerTid a.type_id then (r.1, r.2.1, r.2.2.1, a :: r.2.2.2)
    else r

/-- Group index assigned to an actor by the priority order of `_splitActors`
(`none` when no substring matches). Proof-side helper. -/
def actorGroup (a : Actor) : Option (Fin 4) :=
  if containsSub vehicleTid a.type_id then some 0
  else if containsSub trafficLightTid a.type_id then some 1
  else if containsSub speedLimitTid a.type_id then some 2
  else if containsSub walkerTid a.type_id then some 3
  else none

theorem splitActors_eq_filter (l : List Actor) :
    splitActors l = (l.filter fun a => actorGroup a == some 0,
                     l.filter fun a => actorGroup a == some 1,
                     l.filter fun a => actorGroup a == some 2,
                     l.filter fun a => actorGroup a == some 3) := by
  induction l with
  | nil => simp [splitActors]
  | cons b rest ih =>
    rw [splitActors, ih]
    by_cases hv : containsSub vehicleTid b.type_id <;>
      by_cases hl : containsSub trafficLightTid b.type_id <;>
      by_cases hp : containsSub speedLimitTid b.type_id <;>
      by_cases hw : containsSub walkerTid b.type_id <;>
      simp [actorGroup, hv, hl, hp, hw, List.filter_cons]

/-- C4: the four groups produced by `_splitActors` are pairwise disjoint; an
actor in the input list whose type identifier contains one of the four
substrings lands in the group selected by the priority order vehicle,
traffic_light, speed_limit, walker; an actor matching none is in no group. -/
theorem splitActors_partition (l : List Actor) (a : Actor) :
    (¬(a ∈ (splitActors l).1 ∧ a ∈ (splitActors l).2.1)) ∧
    (¬(a ∈ (splitActors l).1 ∧ a ∈ (splitActors l).2.2.1)) ∧
    (¬(a ∈ (splitActors l).1 ∧ a ∈ (splitActors l).2.2.2)) ∧
    (¬(a ∈ (splitActors l).2.1 ∧ a ∈ (splitActors l).2.2.1)) ∧
    (¬(a ∈ (splitActors l).2.1 ∧ a ∈ (splitActors l).2.2.2)) ∧
    (¬(a ∈ (splitActors l).2.2.1 ∧ a ∈ (splitActors l).2.2.2)) ∧
    (a ∈ l → containsSub vehicleTid a.type_id = true → a ∈ (splitActors l).1) ∧
    (a ∈ l → containsSub vehicleTid a.type_id = false →
      containsSub trafficLightTid a.type_id = true → a ∈ (splitActors l).2.1) ∧
    (a ∈ l → containsSub vehicleTid a.type_id = false →
      containsSub trafficLightTid a.type_id = false →
      containsSub speedLimitTid a.type_id = true → a ∈ (splitActors l).2.2.1) ∧
    (a ∈ l → containsSub vehicleTid a.type_id = false →
      containsSub trafficLightTid a.type_id = false →
      containsSub speedLimitTid a.type_id = false →
      containsSub walkerTid a.type_id = true → a ∈ (splitActors l).2.2.2) ∧
    (containsSub vehicleTid a.type_id = false →
      containsSub trafficLightTid a.type_id = false →
      containsSub speedLimitTid a.type_id = false →
      containsSub walkerTid a.type_id = false →
      a ∉ (splitActors l).1 ∧ a ∉ (splitActors l).2.1 ∧
      a ∉ (splitActors l).2.2.1 ∧ a ∉ (splitActors l).2.2.2) := by
  rw [splitActors_eq_filter]
  simp only [List.mem_filter, beq_iff_eq]
  by_cases hv : containsSub vehicleTid a.type_id <;>
    by_cases hl : containsSub trafficLightTid a.type_id <;>
    by_cases hp : containsSub speedLimitTid a.type_id <;>
    by_cases hw : containsSub walkerTid a.type_id <;>
    simp [actorGroup, hv, hl, hp, hw]

/-- Witness for C4: a concrete vehicle actor lands in the vehicles group. -/
theorem splitActors_partition_witness :
    (⟨1, "vehicle.audi.a2".toList, 0, 0⟩ : Actor) ∈
      (splitActors [⟨1, "vehicle.audi.a2".toList, 0, 0⟩]).1 :=
  (splitActors_partition [⟨1, "vehicle.audi.a2".toList, 0, 0⟩]
      ⟨1, "vehicle.audi.a2".toList, 0, 0⟩).2.2.2.2.2.2.1
    (by simp) (by rfl)

/-- The fixed culling radius set in `ModuleWorld.start`: `self.filter_radius = 50`. -/
def filter_radius : ℚ := 50

/-- Embedding of `ModuleWorld.is_actor_inside_hero_radius`. The source compares
`sqrt(dx^2 + dy^2) <= filter_radius`; since the radius is nonnegative this
equals the squared comparison used here (`is_actor_inside_hero_radius_iff_sqrt`
proves the two agree), which keeps the predicate decidable. -/
def is_actor_inside_hero_radius (hero a : Actor) : Bool :=
  decide ((a.x - hero.x) ^ 2 + (a.y - hero.y) ^ 2 ≤ filter_radius ^ 2)

/-- The squared comparison agrees with the source's square-root comparison. -/
theorem is_actor_inside_hero_radius_iff_sqrt (hero a : Actor) :
    is_actor_inside_hero_radius hero a = true ↔
      Real.sqrt (((a.x - hero.x) ^ 2 + (a.y - hero.y) ^ 2 : ℚ) : ℝ) ≤
        ((filter_radius : ℚ) : ℝ) := by
  rw [is_actor_inside_hero_radius, decide_eq_true_iff]
  rw [Real.sqrt_le_left (by norm_num [filter_radius])]
  constructor
  · intro h
    exact_mod_cast h
  · intro h
    exact_mod_cast h

/-- Embedding of the hero-radius culling step of `ModuleWorld.render`: when a
hero actor is set, the vehicle, traffic-light and speed-limit groups are
filtered by `is_actor_inside_hero_radius`; walkers are not filtered, and with
no hero nothing is filtered. -/
def renderFilter (hero : Option Actor)
    (groups : List Actor × List Actor × List Actor × List Actor) :
    List Actor × List Actor × List Actor × List Actor :=
  match hero with
  | none => groups
  | some h => (groups.1.filter (is_actor_inside_hero_radius h),
               groups.2.1.filter (is_actor_inside_hero_radius h),
               groups.2.2.1.filter (is_actor_inside_hero_radius h),
               groups.2.2.2)

/-- C5: with a hero set, an entity at Euclidean distance strictly greater than
the filter radius from the hero is excluded from the rendered vehicle,
traffic-light and speed-limit sets, and an entity at distance exactly the
radius is kept in its set (inclusive boundary). -/
theorem hero_radius_culling (h a : Actor)
    (gs : List Actor × List Actor × List Actor × List Actor) :
    (((filter_radius : ℚ) : ℝ) < Real.sqrt (((a.x - h.x) ^ 2 + (a.y - h.y) ^ 2 : ℚ) : ℝ) →
      a ∉ (renderFilter (some h) gs).1 ∧ a ∉ (renderFilter (some h) gs).2.1 ∧
        a ∉ (renderFilter (some h) gs).2.2.1) ∧
    (Real.sqrt (((a.x - h.x) ^ 2 + (a.y - h.y) ^ 2 : ℚ) : ℝ) = ((filter_radius : ℚ) : ℝ) →
      (a ∈ gs.1 → a ∈ (renderFilter (some h) gs).1) ∧
      (a ∈ gs.2.1 → a ∈ (renderFilter (some h) gs).2.1) ∧
      (a ∈ gs.2.2.1 → a ∈ (renderFilter (some h) gs).2.2.1)) := by
  simp only [renderFilter]
  constructor
  · intro hgt
    have hb : is_actor_inside_hero_radius h a = false := by
      rw [← Bool.not_eq_true, is_actor_inside_hero_radius_iff_sqrt]
      exact not_le.mpr hgt
    refine ⟨?_, ?_, ?_⟩ <;>
    · intro hmem
      rcases List.mem_filter.mp hmem with ⟨-, hbt⟩
      rw [hb] at hbt
      exact Bool.false_ne_true hbt
  · intro heq
    have hb : is_actor_inside_hero_radius h a = true :=
      (is_actor_inside_hero_radius_iff_sqrt h a).mpr heq.le
    exact ⟨fun hm => List.mem_filter.mpr ⟨hm, hb⟩, fun hm => List.mem_filter.mpr ⟨hm, hb⟩,
      fun hm => List.mem_filter.mpr ⟨hm, hb⟩⟩

/-- Witness for C5: hero at the origin, a vehicle at distance 60 is culled and
a vehicle at distance exactly 50 (a 30-40-50 triangle) is kept. -/
theorem hero_radius_culling_witness :
    (⟨1, "vehicle.far".toList, 60, 0⟩ : Actor) ∉
      (renderFilter (some ⟨0, "vehicle.hero".toList, 0, 0⟩)
        ([⟨1, "vehicle.far".toList, 60, 0⟩, ⟨2, "vehicle.edge".toList, 30, 40⟩], [], [], [])).1 ∧
    (⟨2, "vehicle.edge".toList, 30, 40⟩ : Actor) ∈
      (renderFilter (some ⟨0, "vehicle.hero".toList, 0, 0⟩)
        ([⟨1, "vehicle.far".toList, 60, 0⟩, ⟨2, "vehicle.edge".toList, 30, 40⟩], [], [], [])).1 := by
  constructor
  · refine ((hero_radius_culling ⟨0, "vehicle.hero".toList, 0, 0⟩ ⟨1, "vehicle.far".toList, 60, 0⟩
      ([⟨1, "vehicle.far".toList, 60, 0⟩, ⟨2, "vehicle.edge".toList, 30, 40⟩], [], [], [])).1 ?_).1
    rw [Real.lt_sqrt (by norm_num [filter_radius])]
    push_cast [filter_radius]
    norm_num
  · refine ((hero_radius_culling ⟨0, "vehicle.hero".toList, 0, 0⟩ ⟨2, "vehicle.edge".toList, 30, 40⟩
      ([⟨1, "vehicle.far".toList, 60, 0⟩, ⟨2, "vehicle.edge".toList, 30, 40⟩], [], [], [])).2 ?_).1
      (by simp)
    have hsq : ((((⟨2, "vehicle.edge".toList, 30, 40⟩ : Actor).x -
        (⟨0, "vehicle.hero".toList, 0, 0⟩ : Actor).x) ^ 2 +
        ((⟨2, "vehicle.edge".toList, 30, 40⟩ : Actor).y -
        (⟨0, "vehicle.hero".toList, 0, 0⟩ : Actor).y) ^ 2 : ℚ) : ℝ) = 50 ^ 2 := by
      push_cast
      norm_num
    rw [hsq, Real.sqrt_sq (by norm_num)]
    norm_num [filter_radius]

/-- Model of Python `min(acc, x)` where the accumulator starts at `float inf`,
modelled as `none`. -/
def minInf (m : Option ℚ) (x : ℚ) : Option ℚ :=
  match m with
  | none => some x
  | some v => some (min v x)

/-- Embedding of `ModuleWorld._compute_map_bounding_box`: the loop accumulates
`x_min, y_min` starting from `float inf` (`none`) and `x_max, y_max` starting
from `0`, and returns `(x_min, y_min, x_max, y_max)`. -/
def compute_map_bounding_box (wps : List (ℚ × ℚ)) : Option ℚ × Option ℚ × ℚ × ℚ :=
  wps.foldl (fun acc wp =>
      (minInf acc.1 wp.1, minInf acc.2.1 wp.2, max acc.2.2.1 wp.1, max acc.2.2.2 wp.2))
    (none, none, 0, 0)

/-- C6 counterexample: for the single waypoint `(-5, -7)` the code returns
`(-5, -7, 0, 0)`, not the axis-aligned bounding box `(-5, -7, -5, -7)`: the
max accumulators start at `0`, not at the smallest coordinate. -/
theorem compute_map_bounding_box_misses_negative_max :
    compute_map_bounding_box [(-5, -7)] = (some (-5), some (-7), 0, 0) ∧
    compute_map_bounding_box [(-5, -7)] ≠ (some (-5), some (-7), -5, -7) := by
  constructor
  · norm_num [compute_map_bounding_box, minInf]
  · norm_num [compute_map_bounding_box, minInf, Prod.ext_iff]

theorem bbox_foldl_split (wps : List (ℚ × ℚ)) (m1 m2 : Option ℚ) (a1 a2 : ℚ) :
    wps.foldl (fun acc wp =>
        (minInf acc.1 wp.1, minInf acc.2.1 wp.2, max acc.2.2.1 wp.1, max acc.2.2.2 wp.2))
      (m1, m2, a1, a2) =
      ((wps.map Prod.fst).foldl minInf m1, (wps.map Prod.snd).foldl minInf m2,
       (wps.map Prod.fst).foldl max a1, (wps.map Prod.snd).foldl max a2) := by
  induction wps generalizing m1 m2 a1 a2 with
  | nil => rfl
  | cons w t ih => simp [List.foldl, ih]

theorem foldl_minInf_some (xs : List ℚ) (m : ℚ) :
    xs.foldl minInf (some m) = some (xs.foldl min m) := by
  induction xs generalizing m with
  | nil => rfl
  | cons x t ih => simp [List.foldl, minInf, ih]

theorem foldl_minInf_none (xs : List ℚ) (hne : xs ≠ []) :
    xs.foldl minInf none = xs.min? := by
  match xs with
  | [] => exact absurd rfl hne
  | x :: t =>
    rw [List.foldl, minInf, foldl_minInf_some, List.min?_cons']

/-- C6 (amended): for every non-empty waypoint list, the first two components
are the true per-axis minima, but the last two are the per-axis maxima clamped
below by the initial accumulator value 0 — i.e. `max` taken together with 0 —
so a map lying entirely at negative coordinates gets `0` as its upper bound. -/
theorem compute_map_bounding_box_eq (wps : List (ℚ × ℚ)) (hne : wps ≠ []) :
    compute_map_bounding_box wps =
      ((wps.map Prod.fst).min?, (wps.map Prod.snd).min?,
       (wps.map Prod.fst).foldl max 0, (wps.map Prod.snd).foldl max 0) := by
  rw [compute_map_bounding_box, bbox_foldl_split]
  rw [foldl_minInf_none _ (by simpa using hne), foldl_minInf_none _ (by simpa using hne)]

/-- Witness for the amended C6 on a concrete two-waypoint list. -/
theorem compute_map_bounding_box_eq_witness :
    compute_map_bounding_box [(-5, -7), (3, 2)] =
      (([(-5 : ℚ), 3]).min?, ([(-7 : ℚ), 2]).min?,
       ([(-5 : ℚ), 3]).foldl max 0, ([(-7 : ℚ), 2]).foldl max 0) :=
  compute_map_bounding_box_eq [(-5, -7), (3, 2)] (by simp)

/-- Pygame colour constants used by the visualizer. -/
inductive Color
  | red | blue | green | yellow | magenta | cyan | white | black
  | grey | lightGrey | darkGrey | orange
deriving DecidableEq

/-- Signal phases of `carla.libcarla.TrafficLightState`. -/
inductive TrafficLightState
  | Green | Yellow | Red | Off | Unknown
deriving DecidableEq

/-- Embedding of the colour selection in `TrafficLight.__init__`: the attribute
`self.color` is set to black, but the drawing call reads the local variable
`color`, which is assigned only inside the `if 'traffic_light' in type_id`
block and only for the states Green, Yellow and Red; `none` models the
UnboundLocalError raised by `pygame.draw.circle` when the local was never
assigned. -/
def trafficLightDiscColor (tid : List Char) (state : TrafficLightState) : Option Color :=
  if containsSub trafficLightTid tid then
    match state with
    | .Green => some .green
    | .Yellow => some .yellow
    | .Red => some .red
    | _ => none
  else none

/-- C7 (code bug): constructing a TrafficLight renderer faults instead of
falling back to a neutral colour: for an actor whose type identifier does not
contain traffic_light, or for a traffic light in an unrecognised state, the
local `color` is never assigned and the draw call raises; only the three
recognised states on a real traffic light produce a disc colour. -/
theorem trafficLightDiscColor_faults :
    trafficLightDiscColor ("speed_limit.30".toList) .Red = none ∧
    trafficLightDiscColor ("traffic.traffic_light".toList) .Off = none ∧
    trafficLightDiscColor ("traffic.traffic_light".toList) .Green = some .green ∧
    trafficLightDiscColor ("traffic.traffic_light".toList) .Yellow = some .yellow ∧
    trafficLightDiscColor ("traffic.traffic_light".toList) .Red = some .red := by
  refine ⟨by rfl, by rfl, by rfl, by rfl, by rfl⟩

/-- Embedding of the hero-highlight selection in `ModuleWorld.render`:
`selected_hero_actor = [v for v in vehicles if v.id == hero.id]` followed by
indexing `selected_hero_actor[0]`; `none` models the IndexError raised by the
index when the selection is empty. -/
def selectHeroActor (heroId : ℕ) (vehicles : List Actor) : Option Actor :=
  (vehicles.filter fun v => v.id == heroId).head?

/-- C8 counterexample: with the followed entity (id 1) absent from the frame's
vehicle list, the hero-highlight step of the render faults (IndexError,
modelled `none`); it does not degrade to Free mode and continue. -/
theorem selectHeroActor_faults_at_absent_hero :
    selectHeroActor 1 [⟨2, "vehicle.other".toList, 0, 0⟩] = none ∧ (2 : ℕ) ≠ 1 := by
  exact ⟨rfl, by norm_num⟩

/-- C8 (amended): whenever the followed entity's id matches no vehicle rendered
this frame, the per-frame render faults on the empty selection rather than
degrading to Free mode. -/
theorem selectHeroActor_none_of_absent (heroId : ℕ) (vehicles : List Actor)
    (h : ∀ v ∈ vehicles, v.id ≠ heroId) :
    selectHeroActor heroId vehicles = none := by
  have hf : vehicles.filter (fun v => v.id == heroId) = [] := by
    rw [List.filter_eq_nil_iff]
    intro v hv
    simpa using h v hv
  rw [selectHeroActor, hf]
  rfl

/-- Witness for the amended C8 at a concrete one-vehicle frame. -/
theorem selectHeroActor_none_of_absent_witness :
    selectHeroActor 1 [⟨2, "vehicle.other".toList, 0, 0⟩, ⟨3, "vehicle.third".toList, 1, 1⟩] =
      none :=
  selectHeroActor_none_of_absent 1
    [⟨2, "vehicle.other".toList, 0, 0⟩, ⟨3, "vehicle.third".toList, 1, 1⟩]
    (by
      intro v hv
      simp only [List.mem_cons, List.not_mem_nil, or_false] at hv
      rcases hv with rfl | rfl <;> norm_num)

/-- Wheel events handled by `ModuleInput._parse_events`: mouse button 4 is a
scroll-up notch and button 5 a scroll-down notch. -/
inductive WheelEvent
  | scrollUp
  | scrollDown
deriving DecidableEq

/-- The fixed increment `self.wheel_amount = 0.1`. -/
def wheel_amount : ℚ := 1 / 10

/-- Embedding of the wheel handling in `ModuleInput._parse_events`: scroll up
adds the increment to both components of `wheel_offset`; scroll down subtracts
it from both and then resets each component to 0.1 when it has fallen to 0.1
or below. -/
def applyWheelEvent (w : ℚ × ℚ) : WheelEvent → ℚ × ℚ
  | .scrollUp => (w.1 + wheel_amount, w.2 + wheel_amount)
  | .scrollDown =>
    let w0 := w.1 - wheel_amount
    let w1 := w.2 - wheel_amount
    (if w0 ≤ 1 / 10 then 1 / 10 else w0, if w1 ≤ 1 / 10 then 1 / 10 else w1)

/-- The initial zoom factor `self.wheel_offset = [1.0, 1.0]`. -/
def initWheelOffset : ℚ × ℚ := (1, 1)

/-- Zoom state reached from startup by a sequence of wheel events. -/
def processWheelEvents (evs : List WheelEvent) : ℚ × ℚ :=
  evs.foldl applyWheelEvent initWheelOffset

theorem applyWheelEvent_preserves_floor (w : ℚ × ℚ) (e : WheelEvent)
    (h1 : 1 / 10 ≤ w.1) (h2 : 1 / 10 ≤ w.2) :
    1 / 10 ≤ (applyWheelEvent w e).1 ∧ 1 / 10 ≤ (applyWheelEvent w e).2 := by
  cases e with
  | scrollUp =>
    constructor <;> simp only [applyWheelEvent, wheel_amount] <;> linarith
  | scrollDown =>
    constructor <;> simp only [applyWheelEvent] <;> split <;> simp <;> linarith

theorem foldl_wheel_preserves_floor (evs : List WheelEvent) (w : ℚ × ℚ)
    (h1 : 1 / 10 ≤ w.1) (h2 : 1 / 10 ≤ w.2) :
    1 / 10 ≤ (evs.foldl applyWheelEvent w).1 ∧ 1 / 10 ≤ (evs.foldl applyWheelEvent w).2 := by
  induction evs generalizing w with
  | nil => exact ⟨h1, h2⟩
  | cons e t ih =>
    obtain ⟨g1, g2⟩ := applyWheelEvent_preserves_floor w e h1 h2
    exact ih _ g1 g2

/-- C9: every zoom state reachable from startup by any sequence of scroll-up
and scroll-down wheel events keeps both components of `wheel_offset` at least
0.1; in particular no run of scroll-down events drives either below 0.1. -/
theorem wheel_offset_floor (evs : List WheelEvent) :
    1 / 10 ≤ (processWheelEvents evs).1 ∧ 1 / 10 ≤ (processWheelEvents evs).2 :=
  foldl_wheel_preserves_floor evs initWheelOffset
    (by norm_num [initWheelOffset]) (by norm_num [initWheelOffset])

/-- The exact, pre-truncation screen-size map of
`convert_world_to_screen_size`: per-axis scaling with no translation. -/
def screenSizeExact (th : TransformHelper) (v : ℚ × ℚ) : ℚ × ℚ :=
  (v.1 / (th.max_map_point.1 - th.min_map_point.1) * (th.map_size : ℚ),
   v.2 / (th.max_map_point.2 - th.min_map_point.2) * (th.map_size : ℚ))

theorem pyInt_scale_err (k e : ℚ) (hk : 0 < k) :
    |((pyInt (k * e) : ℤ) : ℚ) - k * ((pyInt e : ℤ) : ℚ)| < 1 + k := by
  have h1 := abs_pyInt_sub_lt_one (k * e)
  have h2 := abs_pyInt_sub_lt_one e
  have h4 : |k * e - k * ((pyInt e : ℤ) : ℚ)| < k := by
    rw [← mul_sub, abs_mul, abs_of_pos hk]
    have h2' : |e - ((pyInt e : ℤ) : ℚ)| < 1 := abs_sub_comm ((pyInt e : ℤ) : ℚ) e ▸ h2
    calc k * |e - ((pyInt e : ℤ) : ℚ)| < k * 1 := (mul_lt_mul_left hk).mpr h2'
      _ = k := mul_one k
  calc |((pyInt (k * e) : ℤ) : ℚ) - k * ((pyInt e : ℤ) : ℚ)|
      ≤ |((pyInt (k * e) : ℤ) : ℚ) - k * e| + |k * e - k * ((pyInt e : ℤ) : ℚ)| :=
        abs_sub_le _ _ _
    _ < 1 + k := add_lt_add h1 h4

/-- C10: `convert_world_to_screen_size` is linear up to integer truncation: its
pre-truncation map is exactly homogeneous; the implemented map truncates each
component of the exact map toward zero; and for positive scalar `k` each
component of the result at `k·v` differs from `k` times the corresponding
component of the result at `v` by strictly less than `1 + k`, the sum of the
truncation error at `k·v` and `k` times the truncation error at `v`. -/
theorem convert_size_linear_up_to_truncation (th : TransformHelper) (v : ℚ × ℚ) (k : ℚ)
    (hk : 0 < k)
    (hdx : th.max_map_point.1 - th.min_map_point.1 ≠ 0)
    (hdy : th.max_map_point.2 - th.min_map_point.2 ≠ 0) :
    screenSizeExact th (k * v.1, k * v.2) =
      (k * (screenSizeExact th v).1, k * (screenSizeExact th v).2) ∧
    th.convert_world_to_screen_size v =
      some (pyInt (screenSizeExact th v).1, pyInt (screenSizeExact th v).2) ∧
    th.convert_world_to_screen_size (k * v.1, k * v.2) =
      some (pyInt (k * (screenSizeExact th v).1), pyInt (k * (screenSizeExact th v).2)) ∧
    |((pyInt (k * (screenSizeExact th v).1) : ℤ) : ℚ) -
        k * ((pyInt (screenSizeExact th v).1 : ℤ) : ℚ)| < 1 + k ∧
    |((pyInt (k * (screenSizeExact th v).2) : ℤ) : ℚ) -
        k * ((pyInt (screenSizeExact th v).2 : ℤ) : ℚ)| < 1 + k := by
  have hlin : screenSizeExact th (k * v.1, k * v.2) =
      (k * (screenSizeExact th v).1, k * (screenSizeExact th v).2) := by
    rw [screenSizeExact, screenSizeExact]
    field_simp
    constructor <;> ring
  refine ⟨hlin, ?_, ?_, pyInt_scale_err k _ hk, pyInt_scale_err k _ hk⟩
  · rw [TransformHelper.convert_world_to_screen_size, if_neg (by push_neg; exact ⟨hdx, hdy⟩)]
    rfl
  · rw [TransformHelper.convert_world_to_screen_size, if_neg (by push_neg; exact ⟨hdx, hdy⟩)]
    have := congrArg Prod.fst hlin
    have h2 := congrArg Prod.snd hlin
    simp only [screenSizeExact] at this h2 ⊢
    rw [this, h2]

/-- Witness for C10 with bounds `(0,0)-(10,10)`, canvas 100, `v = (2,3)` and
`k = 2`. -/
theorem convert_size_linear_up_to_truncation_witness :
    screenSizeExact (TransformHelper.mk (0, 0) (10, 10) 100) (2 * 2, 2 * 3) =
      (2 * (screenSizeExact (TransformHelper.mk (0, 0) (10, 10) 100) (2, 3)).1,
       2 * (screenSizeExact (TransformHelper.mk (0, 0) (10, 10) 100) (2, 3)).2) ∧
    (TransformHelper.mk (0, 0) (10, 10) 100).convert_world_to_screen_size (2, 3) =
      some (pyInt (screenSizeExact (TransformHelper.mk (0, 0) (10, 10) 100) (2, 3)).1,
            pyInt (screenSizeExact (TransformHelper.mk (0, 0) (10, 10) 100) (2, 3)).2) ∧
    (TransformHelper.mk (0, 0) (10, 10) 100).convert_world_to_screen_size (2 * 2, 2 * 3) =
      some (pyInt (2 * (screenSizeExact (TransformHelper.mk (0, 0) (10, 10) 100) (2, 3)).1),
            pyInt (2 * (screenSizeExact (TransformHelper.mk (0, 0) (10, 10) 100) (2, 3)).2)) ∧
    |((pyInt (2 * (screenSizeExact (TransformHelper.mk (0, 0) (10, 10) 100) (2, 3)).1) : ℤ) : ℚ) -
        2 * ((pyInt (screenSizeExact (TransformHelper.mk (0, 0) (10, 10) 100) (2, 3)).1 : ℤ) : ℚ)|
      < 1 + 2 ∧
    |((pyInt (2 * (screenSizeExact (TransformHelper.mk (0, 0) (10, 10) 100) (2, 3)).2) : ℤ) : ℚ) -
        2 * ((pyInt (screenSizeExact (TransformHelper.mk (0, 0) (10, 10) 100) (2, 3)).2 : ℤ) : ℚ)|
      < 1 + 2 :=
  convert_size_linear_up_to_truncation (TransformHelper.mk (0, 0) (10, 10) 100) (2, 3) 2
    (by norm_num) (by norm_num) (by norm_num)
